import Mathlib

/-!
Shallow embedding of the snake-game engine in `src/styles/SnakeGame.tsx`
(the `SnakeGame` React component).  The game logic lives in the callbacks
`initGame`, `moveSnake`, `spawnFood`, `checkCollision` and `handleKeyDown`;
each is translated below as a pure function on an explicit `GameState`.

Modelling conventions:
* JS numbers used as grid coordinates are embedded as `Int` (the code only
  ever adds or subtracts 1 from them).
* `Math.random()` is embedded as an explicitly passed list of rational
  samples in `[0,1)`; `Math.floor(Math.random() * (width / gridSize))`
  becomes `⌊u * cols⌋`.  The unbounded retry loop in `spawnFood` becomes a
  recursion over that list returning `Option`: `none` models the case where
  the loop has not yet found a free cell (i.e. divergence, were the list of
  samples exhausted).
* `moveSnake` returns `Option GameState`: `none` when `spawnFood` runs out
  of samples, or when the snake is empty (the source indexes `snake[0]`,
  which is meaningless for an empty snake).
* The grid bounds `width / gridSize` and `height / gridSize` are passed as
  `cols` and `rows` (the component defaults give `400 / 20 = 20` each).
-/

namespace SlitherSynth

/-- Source `interface Coordinate { x: number; y: number }`. -/
structure Coordinate where
  x : Int
  y : Int
deriving DecidableEq, Repr

/-- Source `type Direction` with the four arrow directions. -/
inductive Direction where
  | UP
  | DOWN
  | LEFT
  | RIGHT
deriving DecidableEq, Repr

/-- Source `interface GameState { snake; food; direction; score; gameOver }`. -/
structure GameState where
  snake : List Coordinate
  food : Coordinate
  direction : Direction
  score : Nat
  gameOver : Bool
deriving DecidableEq, Repr

/-- The `switch (direction)` block of `moveSnake`: offset the head by one
grid cell in the given direction. -/
def offsetDir (d : Direction) (head : Coordinate) : Coordinate :=
  match d with
  | Direction.UP => { head with y := head.y - 1 }
  | Direction.DOWN => { head with y := head.y + 1 }
  | Direction.LEFT => { head with x := head.x - 1 }
  | Direction.RIGHT => { head with x := head.x + 1 }

/-- Source `checkCollision(head, snakePositions)`: wall test against
`[0, cols) × [0, rows)`, then self test over indices `i ≥ 1`. -/
def checkCollision (cols rows : Int) (head : Coordinate)
    (snakePositions : List Coordinate) : Bool :=
  if head.x < 0 ∨ head.x ≥ cols ∨ head.y < 0 ∨ head.y ≥ rows then
    true
  else
    (snakePositions.drop 1).any fun seg =>
      seg.x == head.x && seg.y == head.y

/-- One candidate of `spawnFood`:
`{ x: Math.floor(Math.random() * (width / gridSize)), y: ... }`. -/
def randCandidate (cols rows : Int) (u : ℚ × ℚ) : Coordinate :=
  { x := ⌊u.1 * (cols : ℚ)⌋, y := ⌊u.2 * (rows : ℚ)⌋ }

/-- Source `spawnFood(snakePositions)`: keep drawing random candidates until one is
not on the snake.  The random source is the explicit list `randoms`; an
exhausted list (`none`) models the loop still running. -/
def spawnFood (cols rows : Int) (snakePositions : List Coordinate) :
    List (ℚ × ℚ) → Option Coordinate
  | [] => none
  | u :: rest =>
    let newFood := randCandidate cols rows u
    if snakePositions.any
        (fun seg => seg.x == newFood.x && seg.y == newFood.y) then
      spawnFood cols rows snakePositions rest
    else
      some newFood

/-- Source `moveSnake()`, the tick body: no-op on `gameOver`; otherwise compute
`newHead`, unshift it, either eat (score+1, respawn food on the grown
snake) or pop the tail, then run `checkCollision` on the resulting snake
and commit everything (the snake is committed even when a collision sets
`gameOver`). -/
def moveSnake (cols rows : Int) (randoms : List (ℚ × ℚ))
    (s : GameState) : Option GameState :=
  if s.gameOver then
    some s
  else
    match s.snake with
    | [] => none
    | head :: _ =>
      let newHead := offsetDir s.direction head
      let grown := newHead :: s.snake
      if newHead.x == s.food.x && newHead.y == s.food.y then
        match spawnFood cols rows grown randoms with
        | none => none
        | some f =>
          some { snake := grown
                 food := f
                 direction := s.direction
                 score := s.score + 1
                 gameOver := checkCollision cols rows newHead grown }
      else
        let trimmed := grown.dropLast
        some { snake := trimmed
               food := s.food
               direction := s.direction
               score := s.score
               gameOver := checkCollision cols rows newHead trimmed }

/-- Source `initGame()`: reset to the canonical state.  The argument is the state
being replaced; it is ignored, which is exactly the determinism of the
reset path. -/
def initGame (_ : GameState) : GameState :=
  { snake := [⟨8, 10⟩, ⟨7, 10⟩, ⟨6, 10⟩]
    food := ⟨13, 10⟩
    direction := Direction.RIGHT
    score := 0
    gameOver := false }

/-- The initial `useState` values of the component (identical to the reset
state). -/
def initialState : GameState :=
  { snake := [⟨8, 10⟩, ⟨7, 10⟩, ⟨6, 10⟩]
    food := ⟨13, 10⟩
    direction := Direction.RIGHT
    score := 0
    gameOver := false }

/-- The opposite of a direction (UP↔DOWN, LEFT↔RIGHT). -/
def opposite : Direction → Direction
  | Direction.UP => Direction.DOWN
  | Direction.DOWN => Direction.UP
  | Direction.LEFT => Direction.RIGHT
  | Direction.RIGHT => Direction.LEFT

/-- The direction-key part of `handleKeyDown`: ignored while `gameOver`;
each arrow key updates `direction` unless the current direction is the
exact opposite of the requested one (`if (direction !== "DOWN")
setDirection("UP")`, etc.). -/
def handleKeyDown (s : GameState) (d : Direction) : GameState :=
  if s.gameOver then
    s
  else if s.direction = opposite d then
    s
  else
    { s with direction := d }

/-- A run of consecutive ticks, each tick consuming its own list of random
samples. -/
def runTicks (cols rows : Int) :
    List (List (ℚ × ℚ)) → GameState → Option GameState
  | [], s => some s
  | rs :: rest, s =>
    match moveSnake cols rows rs s with
    | none => none
    | some t => runTicks cols rows rest t

/-! ### Basic lemmas about the embedding -/

lemma coordBeq_eq_true_iff (a b : Coordinate) :
    (a.x == b.x && a.y == b.y) = true ↔ a = b := by
  cases a
  cases b
  simp [Coordinate.mk.injEq]

lemma any_coordBeq_iff_mem (a : Coordinate) (l : List Coordinate) :
    (l.any fun seg => seg.x == a.x && seg.y == a.y) = true ↔ a ∈ l := by
  simp only [List.any_eq_true, coordBeq_eq_true_iff]
  constructor
  · rintro ⟨x, hx, rfl⟩
    exact hx
  · intro h
    exact ⟨a, h, rfl⟩

/-- A `gameOver` state is returned untouched by one tick. -/
lemma moveSnake_gameOver (cols rows : Int) (randoms : List (ℚ × ℚ))
    (s : GameState) (h : s.gameOver = true) :
    moveSnake cols rows randoms s = some s := by
  simp [moveSnake, h]

/-- Unfolding of the tick when the new head misses the food: unshift the
head, pop the tail, score and food untouched, `gameOver` from
`checkCollision` on the popped snake. -/
lemma moveSnake_noeat (cols rows : Int) (randoms : List (ℚ × ℚ))
    (head : Coordinate) (rest : List Coordinate) (f : Coordinate)
    (d : Direction) (sc : Nat) (hne : offsetDir d head ≠ f) :
    moveSnake cols rows randoms ⟨head :: rest, f, d, sc, false⟩ =
      some ⟨(offsetDir d head :: head :: rest).dropLast, f, d, sc,
            checkCollision cols rows (offsetDir d head)
              ((offsetDir d head :: head :: rest).dropLast)⟩ := by
  have hbeq : ((offsetDir d head).x == f.x && (offsetDir d head).y == f.y)
      = false := by
    rw [Bool.eq_false_iff]
    intro h
    exact hne ((coordBeq_eq_true_iff _ _).mp h)
  simp [moveSnake, hbeq]

/-- Unfolding of the tick when the new head lands on the food: unshift the
head (no pop), score + 1, food from `spawnFood` over the grown snake,
`gameOver` from `checkCollision` on the grown snake. -/
lemma moveSnake_eat (cols rows : Int) (randoms : List (ℚ × ℚ))
    (head : Coordinate) (rest : List Coordinate) (f : Coordinate)
    (d : Direction) (sc : Nat) (heat : offsetDir d head = f) :
    moveSnake cols rows randoms ⟨head :: rest, f, d, sc, false⟩ =
      match spawnFood cols rows (offsetDir d head :: head :: rest) randoms with
      | none => none
      | some nf =>
        some ⟨offsetDir d head :: head :: rest, nf, d, sc + 1,
              checkCollision cols rows (offsetDir d head)
                (offsetDir d head :: head :: rest)⟩ := by
  have hbeq : ((offsetDir d head).x == f.x && (offsetDir d head).y == f.y)
      = true := (coordBeq_eq_true_iff _ _).mpr heat
  simp [moveSnake, hbeq]

/-- A committed `spawnFood` result was checked against every snake
segment. -/
lemma spawnFood_not_mem (cols rows : Int) (ps : List Coordinate) :
    ∀ (randoms : List (ℚ × ℚ)) (f : Coordinate),
      spawnFood cols rows ps randoms = some f → f ∉ ps
  | [], f, h => by simp [spawnFood] at h
  | u :: rest, f, h => by
    rw [spawnFood] at h
    by_cases hc : (ps.any fun seg =>
        seg.x == (randCandidate cols rows u).x &&
        seg.y == (randCandidate cols rows u).y) = true
    · rw [if_pos hc] at h
      exact spawnFood_not_mem cols rows ps rest f h
    · rw [if_neg hc] at h
      cases h
      intro hmem
      exact hc ((any_coordBeq_iff_mem _ _).mpr hmem)

/-- Repeated ticks from a `gameOver` state change nothing. -/
lemma runTicks_gameOver (cols rows : Int) (s : GameState)
    (h : s.gameOver = true) :
    ∀ rss : List (List (ℚ × ℚ)), runTicks cols rows rss s = some s
  | [] => rfl
  | rs :: rest => by
    rw [runTicks, moveSnake_gameOver cols rows rs s h]
    exact runTicks_gameOver cols rows s h rest

/-! ### Claim theorems -/

/-- C9: on the 20×20 grid, one tick from the canonical starting state
(snake `[(8,10),(7,10),(6,10)]`, direction RIGHT, food `(13,10)`, score 0)
moves the snake to `[(9,10),(8,10),(7,10)]` and leaves food, score and
`gameOver` untouched. -/
theorem C9_example_tick :
    moveSnake 20 20 [] initialState =
      some ⟨[⟨9, 10⟩, ⟨8, 10⟩, ⟨7, 10⟩], ⟨13, 10⟩, Direction.RIGHT, 0, false⟩ := by
  decide

/-- C5: `initGame` is deterministic — from any state it produces the
canonical reset state: snake `[(8,10),(7,10),(6,10)]` (head first),
direction RIGHT, food `(13,10)`, score 0, `gameOver` false — so any two
calls agree. -/
theorem C5_init_deterministic (s t : GameState) :
    initGame s =
      ⟨[⟨8, 10⟩, ⟨7, 10⟩, ⟨6, 10⟩], ⟨13, 10⟩, Direction.RIGHT, 0, false⟩ ∧
    initGame s = initGame t :=
  ⟨rfl, rfl⟩

/-- C4: once `gameOver` is true a tick returns the state unchanged, and so
does any sequence of ticks (until `initGame`, which is the only operation
that resets the flag). -/
theorem C4_terminal_tick_noop (cols rows : Int) (randoms : List (ℚ × ℚ))
    (rss : List (List (ℚ × ℚ))) (s : GameState) (h : s.gameOver = true) :
    moveSnake cols rows randoms s = some s ∧
    runTicks cols rows rss s = some s :=
  ⟨moveSnake_gameOver cols rows randoms s h,
   runTicks_gameOver cols rows s h rss⟩

/-- Witness for C4 at a concrete terminal state. -/
theorem C4_terminal_tick_noop_witness :
    moveSnake 20 20 [] ⟨[⟨1, 1⟩], ⟨2, 2⟩, Direction.UP, 5, true⟩ =
      some ⟨[⟨1, 1⟩], ⟨2, 2⟩, Direction.UP, 5, true⟩ ∧
    runTicks 20 20 [[], []] ⟨[⟨1, 1⟩], ⟨2, 2⟩, Direction.UP, 5, true⟩ =
      some ⟨[⟨1, 1⟩], ⟨2, 2⟩, Direction.UP, 5, true⟩ :=
  C4_terminal_tick_noop 20 20 [] [[], []]
    ⟨[⟨1, 1⟩], ⟨2, 2⟩, Direction.UP, 5, true⟩ rfl

/-- C3: while playing, the tick moves the head exactly one cell in the
current direction (UP: y-1, DOWN: y+1, LEFT: x-1, RIGHT: x+1); when no
food is eaten the new snake is `newHead` prepended to the old snake with
the last segment removed, so the length is unchanged; when food is eaten
the new snake is `newHead` prepended to the whole old snake, so the
length grows by exactly 1. -/
theorem C3_movement (cols rows : Int) (randoms : List (ℚ × ℚ))
    (s : GameState) (head : Coordinate) (rest : List Coordinate)
    (hGo : s.gameOver = false) (hS : s.snake = head :: rest) :
    (∀ c : Coordinate,
      offsetDir Direction.UP c = ⟨c.x, c.y - 1⟩ ∧
      offsetDir Direction.DOWN c = ⟨c.x, c.y + 1⟩ ∧
      offsetDir Direction.LEFT c = ⟨c.x - 1, c.y⟩ ∧
      offsetDir Direction.RIGHT c = ⟨c.x + 1, c.y⟩) ∧
    (offsetDir s.direction head ≠ s.food →
      ∃ t, moveSnake cols rows randoms s = some t ∧
        t.snake = offsetDir s.direction head :: s.snake.dropLast ∧
        t.snake.length = s.snake.length) ∧
    (offsetDir s.direction head = s.food →
      ∀ t, moveSnake cols rows randoms s = some t →
        t.snake = offsetDir s.direction head :: s.snake ∧
        t.snake.length = s.snake.length + 1) := by
  obtain ⟨sn, f, d, sc, go⟩ := s
  simp only at hGo hS
  subst hGo hS
  refine ⟨fun c => ⟨rfl, rfl, rfl, rfl⟩, ?_, ?_⟩
  · intro hne
    refine ⟨_, moveSnake_noeat cols rows randoms head rest f d sc hne, ?_, ?_⟩
    · simp [List.dropLast_cons₂]
    · simp [List.length_dropLast]
  · intro heat t ht
    rw [moveSnake_eat cols rows randoms head rest f d sc heat] at ht
    cases hsf : spawnFood cols rows (offsetDir d head :: head :: rest) randoms with
    | none => rw [hsf] at ht; cases ht
    | some nf =>
      rw [hsf] at ht
      cases ht
      exact ⟨rfl, rfl⟩

/-- Witness for C3 at a concrete playing state (direction UP, no food on
the path). -/
theorem C3_movement_witness :
    moveSnake 20 20 []
        ⟨[⟨8, 10⟩, ⟨7, 10⟩, ⟨6, 10⟩], ⟨13, 10⟩, Direction.UP, 0, false⟩ =
      some ⟨[⟨8, 9⟩, ⟨8, 10⟩, ⟨7, 10⟩], ⟨13, 10⟩, Direction.UP, 0, false⟩ ∧
    ([⟨8, 9⟩, ⟨8, 10⟩, ⟨7, 10⟩] : List Coordinate).length =
      ([⟨8, 10⟩, ⟨7, 10⟩, ⟨6, 10⟩] : List Coordinate).length := by
  obtain ⟨t, ht, hsnake, hlen⟩ := (C3_movement 20 20 []
      ⟨[⟨8, 10⟩, ⟨7, 10⟩, ⟨6, 10⟩], ⟨13, 10⟩, Direction.UP, 0, false⟩
      ⟨8, 10⟩ [⟨7, 10⟩, ⟨6, 10⟩] rfl rfl).2.1 (by decide)
  exact ⟨by decide, by decide⟩

/-- Characterization of a wall-collision tick: with the food inside the
grid and the new head outside it, the tick commits the *moved* snake
(the code calls `setSnake(newSnake)` even when a collision was found),
sets `gameOver`, and leaves food and score untouched. -/
lemma moveSnake_wall (cols rows : Int) (randoms : List (ℚ × ℚ))
    (head : Coordinate) (rest : List Coordinate) (f : Coordinate)
    (d : Direction) (sc : Nat)
    (hf : 0 ≤ f.x ∧ f.x < cols ∧ 0 ≤ f.y ∧ f.y < rows)
    (hout : (offsetDir d head).x < 0 ∨ (offsetDir d head).x ≥ cols ∨
            (offsetDir d head).y < 0 ∨ (offsetDir d head).y ≥ rows) :
    moveSnake cols rows randoms ⟨head :: rest, f, d, sc, false⟩ =
      some ⟨(offsetDir d head :: head :: rest).dropLast, f, d, sc, true⟩ := by
  obtain ⟨h1, h2, h3, h4⟩ := hf
  have hne : offsetDir d head ≠ f := by
    intro heq
    rw [heq] at hout
    rcases hout with h | h | h | h <;> omega
  rw [moveSnake_noeat cols rows randoms head rest f d sc hne]
  have hcoll : checkCollision cols rows (offsetDir d head)
      ((offsetDir d head :: head :: rest).dropLast) = true := by
    rw [checkCollision, if_pos hout]
  rw [hcoll]

/-- C1 (amended): while playing, with the food inside the grid, a tick
whose new head leaves the grid sets `gameOver = true` and leaves food and
score unchanged, but the snake is still moved: it becomes the
out-of-bounds new head prepended to the old snake with the last segment
removed. -/
theorem C1_wall_tick (cols rows : Int) (randoms : List (ℚ × ℚ))
    (s : GameState) (head : Coordinate) (rest : List Coordinate)
    (hGo : s.gameOver = false) (hS : s.snake = head :: rest)
    (hf : 0 ≤ s.food.x ∧ s.food.x < cols ∧ 0 ≤ s.food.y ∧ s.food.y < rows)
    (hout : (offsetDir s.direction head).x < 0 ∨
            (offsetDir s.direction head).x ≥ cols ∨
            (offsetDir s.direction head).y < 0 ∨
            (offsetDir s.direction head).y ≥ rows) :
    moveSnake cols rows randoms s =
      some ⟨offsetDir s.direction head :: s.snake.dropLast,
            s.food, s.direction, s.score, true⟩ := by
  obtain ⟨sn, f, d, sc, go⟩ := s
  simp only at hGo hS hf hout ⊢
  subst hGo hS
  rw [moveSnake_wall cols rows randoms head rest f d sc hf hout,
    List.dropLast_cons₂]

/-- Witness for C1 at a concrete state: head `(5,0)` moving UP exits the
grid; the snake still moves to `[(5,-1),(5,0)]`. -/
theorem C1_wall_tick_witness :
    moveSnake 20 20 [] ⟨[⟨5, 0⟩, ⟨5, 1⟩], ⟨13, 10⟩, Direction.UP, 3, false⟩ =
      some ⟨[⟨5, -1⟩, ⟨5, 0⟩], ⟨13, 10⟩, Direction.UP, 3, true⟩ := by
  have h := C1_wall_tick 20 20 []
    ⟨[⟨5, 0⟩, ⟨5, 1⟩], ⟨13, 10⟩, Direction.UP, 3, false⟩
    ⟨5, 0⟩ [⟨5, 1⟩] rfl rfl (by decide) (by decide)
  exact h.trans (by decide)

/-- Counterexample to C1 as stated: this is the spec's own example — head
`(19,10)` on a 20-wide grid moving RIGHT.  The tick does set
`gameOver = true` with food and score unchanged, but the committed snake
`[(20,10),(19,10),(18,10)]` differs from the pre-tick snake
`[(19,10),(18,10),(17,10)]`, falsifying "the snake … unchanged". -/
theorem C1_counterexample :
    moveSnake 20 20 []
        ⟨[⟨19, 10⟩, ⟨18, 10⟩, ⟨17, 10⟩], ⟨13, 10⟩, Direction.RIGHT, 0, false⟩ =
      some ⟨[⟨20, 10⟩, ⟨19, 10⟩, ⟨18, 10⟩], ⟨13, 10⟩, Direction.RIGHT, 0, true⟩ ∧
    ([⟨20, 10⟩, ⟨19, 10⟩, ⟨18, 10⟩] : List Coordinate) ≠
      [⟨19, 10⟩, ⟨18, 10⟩, ⟨17, 10⟩] := by
  decide

/-- Lemma: `checkCollision` for an in-bounds head reduces to membership in the
tail (indices ≥ 1) of the checked list. -/
lemma checkCollision_inbounds (cols rows : Int) (h : Coordinate)
    (l : List Coordinate)
    (hin : 0 ≤ h.x ∧ h.x < cols ∧ 0 ≤ h.y ∧ h.y < rows) :
    checkCollision cols rows h l = true ↔ h ∈ l.drop 1 := by
  obtain ⟨h1, h2, h3, h4⟩ := hin
  have hwall : ¬(h.x < 0 ∨ h.x ≥ cols ∨ h.y < 0 ∨ h.y ≥ rows) := by
    push_neg
    exact ⟨by omega, by omega, by omega, by omega⟩
  rw [checkCollision, if_neg hwall]
  exact any_coordBeq_iff_mem h (l.drop 1)

/-- C2 (amended): the self-collision test runs against the snake *after*
this tick's growth/shrink (ignoring the newly inserted head): when no
food is eaten, the tick ends the game exactly when the in-bounds new head
hits a pre-tick segment *other than the tail being vacated* — a new head
equal only to the vacated tail cell does not set `gameOver`; when food is
eaten (no pop), the test runs against the whole pre-tick snake. -/
theorem C2_self_collision (cols rows : Int) (randoms : List (ℚ × ℚ))
    (s : GameState) (head : Coordinate) (rest : List Coordinate)
    (hGo : s.gameOver = false) (hS : s.snake = head :: rest)
    (hin : 0 ≤ (offsetDir s.direction head).x ∧
           (offsetDir s.direction head).x < cols ∧
           0 ≤ (offsetDir s.direction head).y ∧
           (offsetDir s.direction head).y < rows) :
    (offsetDir s.direction head ≠ s.food →
      ∃ t, moveSnake cols rows randoms s = some t ∧
        (t.gameOver = true ↔
          offsetDir s.direction head ∈ s.snake.dropLast)) ∧
    (offsetDir s.direction head = s.food →
      ∀ t, moveSnake cols rows randoms s = some t →
        (t.gameOver = true ↔ offsetDir s.direction head ∈ s.snake)) := by
  obtain ⟨sn, f, d, sc, go⟩ := s
  simp only at hGo hS hin ⊢
  subst hGo hS
  constructor
  · intro hne
    refine ⟨_, moveSnake_noeat cols rows randoms head rest f d sc hne, ?_⟩
    rw [List.dropLast_cons₂]
    have := checkCollision_inbounds cols rows (offsetDir d head)
      (offsetDir d head :: (head :: rest).dropLast) hin
    simpa using this
  · intro heat t ht
    rw [moveSnake_eat cols rows randoms head rest f d sc heat] at ht
    cases hsf : spawnFood cols rows (offsetDir d head :: head :: rest) randoms with
    | none => rw [hsf] at ht; cases ht
    | some nf =>
      rw [hsf] at ht
      cases ht
      have := checkCollision_inbounds cols rows (offsetDir d head)
        (offsetDir d head :: head :: rest) hin
      simpa using this

/-- Witness for C2: a genuine self collision — head `(5,5)` moving DOWN
onto the neck segment `(5,6)` of the pre-tick snake ends the game. -/
theorem C2_self_collision_witness :
    (⟨5, 6⟩ : Coordinate) ∈
      ([⟨5, 5⟩, ⟨5, 6⟩, ⟨6, 6⟩, ⟨6, 5⟩, ⟨7, 5⟩] : List Coordinate).dropLast ∧
    (moveSnake 20 20 []
        ⟨[⟨5, 5⟩, ⟨5, 6⟩, ⟨6, 6⟩, ⟨6, 5⟩, ⟨7, 5⟩], ⟨13, 10⟩,
          Direction.DOWN, 0, false⟩).map GameState.gameOver = some true := by
  obtain ⟨t, ht, hiff⟩ := (C2_self_collision 20 20 []
      ⟨[⟨5, 5⟩, ⟨5, 6⟩, ⟨6, 6⟩, ⟨6, 5⟩, ⟨7, 5⟩], ⟨13, 10⟩,
        Direction.DOWN, 0, false⟩
      ⟨5, 5⟩ [⟨5, 6⟩, ⟨6, 6⟩, ⟨6, 5⟩, ⟨7, 5⟩] rfl rfl (by decide)).1
    (by decide)
  refine ⟨by decide, ?_⟩
  rw [ht]
  simp only [Option.map]
  rw [hiff.mpr (by decide)]

/-- Counterexample to C2 as stated: snake `[(1,1),(1,2),(2,2),(2,1)]`
with the head moving RIGHT onto `(2,1)` — the tail cell about to be
vacated, a segment of the pre-tick snake.  The claim demands
`gameOver = true`, but the tick completes with `gameOver = false`
(the tail was popped before the collision check). -/
theorem C2_counterexample :
    moveSnake 20 20 []
        ⟨[⟨1, 1⟩, ⟨1, 2⟩, ⟨2, 2⟩, ⟨2, 1⟩], ⟨5, 5⟩, Direction.RIGHT, 0, false⟩ =
      some ⟨[⟨2, 1⟩, ⟨1, 1⟩, ⟨1, 2⟩, ⟨2, 2⟩], ⟨5, 5⟩, Direction.RIGHT, 0, false⟩ ∧
    offsetDir Direction.RIGHT ⟨1, 1⟩ = ⟨2, 1⟩ ∧
    (⟨2, 1⟩ : Coordinate) ∈ [⟨1, 1⟩, ⟨1, 2⟩, ⟨2, 2⟩, ⟨2, 1⟩] := by
  decide

lemma opposite_opposite (d : Direction) : opposite (opposite d) = d := by
  cases d <;> rfl

lemma ne_opposite_self (d : Direction) : d ≠ opposite d := by
  cases d <;> simp [opposite]

/-- C6 (amended): a direction request is ignored while `gameOver` is true
and ignored when the current direction is the exact opposite of the
request; otherwise the direction is updated immediately.  Hence no single
`setDirection` call makes the direction the opposite of the direction it
had just before the call — but the update being immediate, two accepted
calls between consecutive ticks can make the effective direction at a
tick the exact opposite of the previous tick's effective direction (see
the counterexample). -/
theorem C6_set_direction (s : GameState) (d : Direction) :
    (s.gameOver = true → handleKeyDown s d = s) ∧
    (s.direction = opposite d → handleKeyDown s d = s) ∧
    (s.gameOver = false → s.direction ≠ opposite d →
      handleKeyDown s d = { s with direction := d }) ∧
    (handleKeyDown s d).direction ≠ opposite s.direction := by
  refine ⟨fun h => by simp [handleKeyDown, h], fun h => by simp [handleKeyDown, h],
    fun hgo hdir => by simp [handleKeyDown, hgo, hdir], ?_⟩
  by_cases hgo : s.gameOver
  · simp only [handleKeyDown, if_pos hgo]
    exact fun h => ne_opposite_self s.direction h
  · by_cases hdir : s.direction = opposite d
    · simp only [handleKeyDown, if_neg hgo, if_pos hdir]
      exact fun h => ne_opposite_self s.direction h
    · simp only [handleKeyDown, if_neg hgo, if_neg hdir]
      intro h
      apply hdir
      rw [h, opposite_opposite]

/-- Witness for C6: with direction RIGHT, a LEFT request is ignored and
an UP request is applied. -/
theorem C6_set_direction_witness :
    handleKeyDown ⟨[⟨1, 1⟩], ⟨2, 2⟩, Direction.RIGHT, 0, false⟩ Direction.LEFT =
      ⟨[⟨1, 1⟩], ⟨2, 2⟩, Direction.RIGHT, 0, false⟩ ∧
    handleKeyDown ⟨[⟨1, 1⟩], ⟨2, 2⟩, Direction.RIGHT, 0, false⟩ Direction.UP =
      ⟨[⟨1, 1⟩], ⟨2, 2⟩, Direction.UP, 0, false⟩ :=
  ⟨(C6_set_direction ⟨[⟨1, 1⟩], ⟨2, 2⟩, Direction.RIGHT, 0, false⟩
      Direction.LEFT).2.1 rfl,
   (C6_set_direction ⟨[⟨1, 1⟩], ⟨2, 2⟩, Direction.RIGHT, 0, false⟩
      Direction.UP).2.2.1 rfl (by decide)⟩

/-- Counterexample to C6's "so the effective direction never becomes the
exact opposite of its immediately preceding effective direction": from
the initial state (direction RIGHT), the requests UP then LEFT are both
accepted (each changes the state), yet the resulting direction is LEFT —
the exact opposite of RIGHT, the direction the previous tick would have
used.  The following tick then moves the head onto the neck and the snake
dies. -/
theorem C6_counterexample :
    (handleKeyDown (handleKeyDown initialState Direction.UP)
        Direction.LEFT).direction = opposite initialState.direction ∧
    initialState.gameOver = false ∧
    handleKeyDown initialState Direction.UP ≠ initialState ∧
    handleKeyDown (handleKeyDown initialState Direction.UP) Direction.LEFT ≠
      handleKeyDown initialState Direction.UP ∧
    (moveSnake 20 20 []
        (handleKeyDown (handleKeyDown initialState Direction.UP)
          Direction.LEFT)).map GameState.gameOver = some true := by
  decide

/-- C7: a committed food respawn never coincides with a snake segment:
`spawnFood` rejects every candidate lying on the snake it was given, and
in an eating tick it is given the post-growth snake, so after the tick
the new food is on none of the committed snake's segments. -/
theorem C7_respawn_off_snake (cols rows : Int) (randoms : List (ℚ × ℚ))
    (ps : List Coordinate) (f : Coordinate) (s : GameState)
    (head : Coordinate) (rest : List Coordinate) (t : GameState) :
    (spawnFood cols rows ps randoms = some f → f ∉ ps) ∧
    (s.gameOver = false → s.snake = head :: rest →
      offsetDir s.direction head = s.food →
      moveSnake cols rows randoms s = some t →
      t.food ∉ t.snake) := by
  refine ⟨spawnFood_not_mem cols rows ps randoms f, ?_⟩
  intro hGo hS heat ht
  obtain ⟨sn, fo, d, sc, go⟩ := s
  simp only at hGo hS heat ht
  subst hGo hS
  rw [moveSnake_eat cols rows randoms head rest fo d sc heat] at ht
  cases hsf : spawnFood cols rows (offsetDir d head :: head :: rest) randoms with
  | none => rw [hsf] at ht; cases ht
  | some nf =>
    rw [hsf] at ht
    cases ht
    exact spawnFood_not_mem cols rows _ randoms nf hsf

/-- Witness for C7: an eating tick with random sample `(0,0)` respawns the
food at `(0,0)`, off the grown snake. -/
theorem C7_respawn_off_snake_witness :
    (⟨0, 0⟩ : Coordinate) ∉ ([⟨1, 1⟩] : List Coordinate) ∧
    (⟨0, 0⟩ : Coordinate) ∉
      ([⟨13, 10⟩, ⟨12, 10⟩, ⟨11, 10⟩, ⟨10, 10⟩] : List Coordinate) := by
  have h := C7_respawn_off_snake 20 20 [(0, 0)] [⟨1, 1⟩] ⟨0, 0⟩
    ⟨[⟨12, 10⟩, ⟨11, 10⟩, ⟨10, 10⟩], ⟨13, 10⟩, Direction.RIGHT, 0, false⟩
    ⟨12, 10⟩ [⟨11, 10⟩, ⟨10, 10⟩]
    ⟨[⟨13, 10⟩, ⟨12, 10⟩, ⟨11, 10⟩, ⟨10, 10⟩], ⟨0, 0⟩, Direction.RIGHT, 1, false⟩
  exact ⟨h.1 (by simp [spawnFood, randCandidate]),
    h.2 rfl rfl (by decide)
      (by simp [moveSnake, spawnFood, randCandidate, checkCollision, offsetDir])⟩

/-- One tick never lowers the score. -/
lemma moveSnake_score_step (cols rows : Int) (randoms : List (ℚ × ℚ))
    (s t : GameState) (h : moveSnake cols rows randoms s = some t) :
    s.score ≤ t.score := by
  obtain ⟨sn, f, d, sc, go⟩ := s
  simp only
  cases go with
  | true =>
    rw [moveSnake_gameOver cols rows randoms _ rfl] at h
    cases h
    exact le_refl _
  | false =>
    cases sn with
    | nil => simp [moveSnake] at h
    | cons head rest =>
      by_cases heat : offsetDir d head = f
      · rw [moveSnake_eat cols rows randoms head rest f d sc heat] at h
        cases hsf : spawnFood cols rows (offsetDir d head :: head :: rest)
            randoms with
        | none => rw [hsf] at h; cases h
        | some nf =>
          rw [hsf] at h
          cases h
          exact Nat.le_succ sc
      · rw [moveSnake_noeat cols rows randoms head rest f d sc heat] at h
        cases h
        exact le_refl _

/-- Any run of ticks never lowers the score. -/
lemma runTicks_score_mono (cols rows : Int) :
    ∀ (rss : List (List (ℚ × ℚ))) (s t : GameState),
      runTicks cols rows rss s = some t → s.score ≤ t.score
  | [], s, t, h => by
    rw [runTicks] at h
    cases h
    exact le_refl _
  | rs :: rest, s, t, h => by
    rw [runTicks] at h
    cases hm : moveSnake cols rows rs s with
    | none => rw [hm] at h; cases h
    | some u =>
      rw [hm] at h
      exact le_trans (moveSnake_score_step cols rows rs s u hm)
        (runTicks_score_mono cols rows rest u t h)

/-- C8: the score is non-decreasing across every sequence of ticks, and a
single playing tick raises it by exactly 1 precisely when the new head
lands on the food; otherwise it is unchanged. -/
theorem C8_score_monotone (cols rows : Int) (rss : List (List (ℚ × ℚ)))
    (randoms : List (ℚ × ℚ)) (s t : GameState)
    (head : Coordinate) (rest : List Coordinate) :
    (runTicks cols rows rss s = some t → s.score ≤ t.score) ∧
    (s.gameOver = false → s.snake = head :: rest →
      moveSnake cols rows randoms s = some t →
      ((t.score = s.score + 1 ↔ offsetDir s.direction head = s.food) ∧
       (offsetDir s.direction head ≠ s.food → t.score = s.score))) := by
  refine ⟨runTicks_score_mono cols rows rss s t, ?_⟩
  intro hGo hS hmove
  obtain ⟨sn, f, d, sc, go⟩ := s
  simp only at hGo hS hmove ⊢
  subst hGo hS
  by_cases heat : offsetDir d head = f
  · rw [moveSnake_eat cols rows randoms head rest f d sc heat] at hmove
    cases hsf : spawnFood cols rows (offsetDir d head :: head :: rest)
        randoms with
    | none => rw [hsf] at hmove; cases hmove
    | some nf =>
      rw [hsf] at hmove
      cases hmove
      exact ⟨⟨fun _ => heat, fun _ => rfl⟩, fun hne => absurd heat hne⟩
  · rw [moveSnake_noeat cols rows randoms head rest f d sc heat] at hmove
    cases hmove
    refine ⟨⟨fun h => ?_, fun h => absurd h heat⟩, fun _ => rfl⟩
    simp only at h
    omega

/-- Witness for C8: an eating tick takes the score from 0 to 1. -/
theorem C8_score_monotone_witness :
    (0 : Nat) ≤ 1 ∧
    ((1 : Nat) = 0 + 1 ↔
      offsetDir Direction.RIGHT ⟨12, 10⟩ = (⟨13, 10⟩ : Coordinate)) := by
  have h := C8_score_monotone 20 20 [[(0, 0)]] [(0, 0)]
    ⟨[⟨12, 10⟩, ⟨11, 10⟩, ⟨10, 10⟩], ⟨13, 10⟩, Direction.RIGHT, 0, false⟩
    ⟨[⟨13, 10⟩, ⟨12, 10⟩, ⟨11, 10⟩, ⟨10, 10⟩], ⟨0, 0⟩, Direction.RIGHT, 1, false⟩
    ⟨12, 10⟩ [⟨11, 10⟩, ⟨10, 10⟩]
  have hmove : moveSnake 20 20 [(0, 0)]
      ⟨[⟨12, 10⟩, ⟨11, 10⟩, ⟨10, 10⟩], ⟨13, 10⟩, Direction.RIGHT, 0, false⟩ =
      some ⟨[⟨13, 10⟩, ⟨12, 10⟩, ⟨11, 10⟩, ⟨10, 10⟩], ⟨0, 0⟩,
            Direction.RIGHT, 1, false⟩ := by
    simp [moveSnake, spawnFood, randCandidate, checkCollision, offsetDir]
  have hrun : runTicks 20 20 [[(0, 0)]]
      ⟨[⟨12, 10⟩, ⟨11, 10⟩, ⟨10, 10⟩], ⟨13, 10⟩, Direction.RIGHT, 0, false⟩ =
      some ⟨[⟨13, 10⟩, ⟨12, 10⟩, ⟨11, 10⟩, ⟨10, 10⟩], ⟨0, 0⟩,
            Direction.RIGHT, 1, false⟩ := by
    rw [runTicks, hmove]
    rfl
  exact ⟨h.1 hrun, (h.2 rfl rfl hmove).1⟩

/-- Lemma: `Math.floor(Math.random() * n)` with a sample in `[0,1)` lands in
`[0, n)` for positive `n`. -/
lemma randCandidate_bounds (cols rows : Int) (u : ℚ × ℚ)
    (hc : 0 < cols) (hr : 0 < rows)
    (h1 : 0 ≤ u.1) (h2 : u.1 < 1) (h3 : 0 ≤ u.2) (h4 : u.2 < 1) :
    0 ≤ (randCandidate cols rows u).x ∧ (randCandidate cols rows u).x < cols ∧
    0 ≤ (randCandidate cols rows u).y ∧ (randCandidate cols rows u).y < rows := by
  have hcq : (0 : ℚ) < (cols : ℚ) := by exact_mod_cast hc
  have hrq : (0 : ℚ) < (rows : ℚ) := by exact_mod_cast hr
  refine ⟨Int.floor_nonneg.mpr (mul_nonneg h1 hcq.le), ?_,
    Int.floor_nonneg.mpr (mul_nonneg h3 hrq.le), ?_⟩
  · exact Int.floor_lt.mpr ((mul_lt_iff_lt_one_left hcq).mpr h2)
  · exact Int.floor_lt.mpr ((mul_lt_iff_lt_one_left hrq).mpr h4)

/-- Every coordinate `spawnFood` commits lies inside the grid, provided
the random samples are in `[0,1)`. -/
lemma spawnFood_bounds (cols rows : Int) (ps : List Coordinate)
    (hc : 0 < cols) (hr : 0 < rows) :
    ∀ (randoms : List (ℚ × ℚ)),
      (∀ u ∈ randoms, 0 ≤ u.1 ∧ u.1 < 1 ∧ 0 ≤ u.2 ∧ u.2 < 1) →
      ∀ f, spawnFood cols rows ps randoms = some f →
        0 ≤ f.x ∧ f.x < cols ∧ 0 ≤ f.y ∧ f.y < rows
  | [], _, f, h => by simp [spawnFood] at h
  | u :: rest, hrand, f, h => by
    rw [spawnFood] at h
    by_cases hmem : (ps.any fun seg =>
        seg.x == (randCandidate cols rows u).x &&
        seg.y == (randCandidate cols rows u).y) = true
    · rw [if_pos hmem] at h
      exact spawnFood_bounds cols rows ps hc hr rest
        (fun v hv => hrand v (List.mem_cons_of_mem u hv)) f h
    · rw [if_neg hmem] at h
      cases h
      obtain ⟨h1, h2, h3, h4⟩ := hrand u (List.mem_cons_self u rest)
      exact randCandidate_bounds cols rows u hc hr h1 h2 h3 h4

/-- C10: the food always lies strictly inside the grid — true of the
initial and reset food `(13,10)` on the default 20×20 grid and of every
coordinate `spawnFood` commits (given samples in `[0,1)`) — and
consequently a wall-colliding tick can never eat: it leaves food and
score unchanged (while still moving the snake and setting `gameOver`). -/
theorem C10_food_in_bounds (cols rows : Int) (ps : List Coordinate)
    (randoms : List (ℚ × ℚ)) (f : Coordinate) (s : GameState)
    (head : Coordinate) (rest : List Coordinate)
    (hc : 0 < cols) (hr : 0 < rows)
    (hrand : ∀ u ∈ randoms, 0 ≤ u.1 ∧ u.1 < 1 ∧ 0 ≤ u.2 ∧ u.2 < 1) :
    (0 ≤ initialState.food.x ∧ initialState.food.x < 20 ∧
     0 ≤ initialState.food.y ∧ initialState.food.y < 20 ∧
     (initGame s).food = initialState.food) ∧
    (spawnFood cols rows ps randoms = some f →
      0 ≤ f.x ∧ f.x < cols ∧ 0 ≤ f.y ∧ f.y < rows) ∧
    (s.gameOver = false → s.snake = head :: rest →
      (0 ≤ s.food.x ∧ s.food.x < cols ∧ 0 ≤ s.food.y ∧ s.food.y < rows) →
      ((offsetDir s.direction head).x < 0 ∨
       (offsetDir s.direction head).x ≥ cols ∨
       (offsetDir s.direction head).y < 0 ∨
       (offsetDir s.direction head).y ≥ rows) →
      moveSnake cols rows randoms s =
        some ⟨offsetDir s.direction head :: s.snake.dropLast,
              s.food, s.direction, s.score, true⟩) := by
  refine ⟨by refine ⟨by decide, by decide, by decide, by decide, rfl⟩,
    spawnFood_bounds cols rows ps hc hr randoms hrand f, ?_⟩
  intro hGo hS hf hout
  obtain ⟨sn, fo, d, sc, go⟩ := s
  simp only at hGo hS hf hout ⊢
  subst hGo hS
  rw [moveSnake_wall cols rows randoms head rest fo d sc hf hout,
    List.dropLast_cons₂]

/-- Witness for C10: sample `(0,0)` commits food `(0,0)`, inside the
20×20 grid; and a wall tick from head `(0,3)` moving LEFT keeps food
`(13,10)` and score 7. -/
theorem C10_food_in_bounds_witness :
    ((0 : Int) ≤ 0 ∧ (0 : Int) < 20) ∧
    moveSnake 20 20 [(0, 0)] ⟨[⟨0, 3⟩, ⟨1, 3⟩], ⟨13, 10⟩, Direction.LEFT, 7, false⟩ =
      some ⟨[⟨-1, 3⟩, ⟨0, 3⟩], ⟨13, 10⟩, Direction.LEFT, 7, true⟩ := by
  have h := C10_food_in_bounds 20 20 [⟨1, 1⟩] [(0, 0)] ⟨0, 0⟩
    ⟨[⟨0, 3⟩, ⟨1, 3⟩], ⟨13, 10⟩, Direction.LEFT, 7, false⟩
    ⟨0, 3⟩ [⟨1, 3⟩] (by decide) (by decide)
    (by intro u hu; rw [List.mem_singleton] at hu; subst hu; exact ⟨by decide, by decide, by decide, by decide⟩)
  obtain ⟨hb, hsp, hwall⟩ := h
  have hspc := hsp (by simp [spawnFood, randCandidate])
  exact ⟨⟨hspc.1, hspc.2.1⟩, (hwall rfl rfl (by decide) (by decide)).trans (by decide)⟩

end SlitherSynth
